import Mathlib

/-!
Shallow embedding of `src/gildedrose.rs` (the Gilded Rose inventory
updater).  Items carry a name, a `sell_in` counter and a `quality`
value; `update_quality` performs one day transition over the item list.
Integer fields are modelled as `Int` (the source uses `i32`; the rules
keep quality within `[0, 50]` and only ever move `sell_in` by one, so
no arithmetic here approaches the machine bounds).
-/

namespace GildedRose

/-- Constant `AGED_BRIE_ITEM` from the source. -/
def AGED_BRIE_ITEM : String := "Aged Brie"

/-- Constant `BACKSTAGE_PASSES_ITEM` from the source. -/
def BACKSTAGE_PASSES_ITEM : String := "Backstage passes to a TAFKAL80ETC concert"

/-- Constant `COMMON_ITEM` from the source. -/
def COMMON_ITEM : String := "Elixir of the Mongoose"

/-- Constant `CONJURED_ITEM` from the source. -/
def CONJURED_ITEM : String := "Conjured Mana Cake"

/-- Constant `LEGENDARY_ITEM` from the source. -/
def LEGENDARY_ITEM : String := "Sulfuras, Hand of Ragnaros"

/-- Constant `MAXIMUM_ALLOWED_QUALITY` from the source. -/
def MAXIMUM_ALLOWED_QUALITY : Int := 50

/-- Constant `MINIMUM_ALLOWED_QUALITY` from the source. -/
def MINIMUM_ALLOWED_QUALITY : Int := 0

/-- The `Item` struct: `{ name: String, sell_in: i32, quality: i32 }`. -/
structure Item where
  name : String
  sell_in : Int
  quality : Int
deriving Repr, DecidableEq

/-- `GildedRose::get_updated_quality_within_bounds`: add `adjust_by` to the
item's quality and clamp the result to `[MINIMUM, MAXIMUM]`. -/
def get_updated_quality_within_bounds (item : Item) (adjust_by : Int) : Int :=
  max (min (item.quality + adjust_by) MAXIMUM_ALLOWED_QUALITY) MINIMUM_ALLOWED_QUALITY

/-- `GildedRose::quality_increasing_update_strategy` (Aged Brie):
adjustment +2 when `sell_in <= 0`, else +1, clamped. -/
def quality_increasing_update_strategy (item : Item) : Int :=
  get_updated_quality_within_bounds item (if item.sell_in ≤ 0 then 2 else 1)

/-- `GildedRose::backstage_passes_update_strategy`: quality 0 once
`sell_in <= 0`; otherwise +3 when `sell_in <= 5`, +2 when `sell_in <= 10`,
else +1, clamped. -/
def backstage_passes_update_strategy (item : Item) : Int :=
  if item.sell_in ≤ 0 then 0
  else
    get_updated_quality_within_bounds item
      (if item.sell_in ≤ 5 then 3 else if item.sell_in ≤ 10 then 2 else 1)

/-- `GildedRose::faster_degrading_update_strategy` (Conjured):
adjustment -4 when `sell_in <= 0`, else -2, clamped. -/
def faster_degrading_update_strategy (item : Item) : Int :=
  get_updated_quality_within_bounds item (if item.sell_in ≤ 0 then -4 else -2)

/-- `GildedRose::default_update_strategy` (fallback for unmatched names):
adjustment -2 when `sell_in <= 0`, else -1, clamped. -/
def default_update_strategy (item : Item) : Int :=
  get_updated_quality_within_bounds item (if item.sell_in ≤ 0 then -2 else -1)

/-- One loop iteration of `GildedRose::update_quality` for a single item:
legendary items are skipped (`continue`); otherwise the quality is set by
the strategy matched on the name and `sell_in` is decremented. -/
def updateItem (item : Item) : Item :=
  if item.name = LEGENDARY_ITEM then item
  else
    let q :=
      if item.name = AGED_BRIE_ITEM then quality_increasing_update_strategy item
      else if item.name = BACKSTAGE_PASSES_ITEM then backstage_passes_update_strategy item
      else if item.name = CONJURED_ITEM then faster_degrading_update_strategy item
      else default_update_strategy item
    { item with quality := q, sell_in := item.sell_in - 1 }

/-- `GildedRose::update_quality`: the loop body is applied to each item of
the list in place; items are mutated independently, so the loop is a map. -/
def update_quality (items : List Item) : List Item :=
  items.map updateItem

/-- A legendary item is left untouched by one update step. -/
theorem updateItem_legendary (item : Item) (h : item.name = LEGENDARY_ITEM) :
    updateItem item = item := by
  simp [updateItem, h]

/-- The update step never changes the name. -/
theorem updateItem_name (item : Item) : (updateItem item).name = item.name := by
  unfold updateItem
  split <;> rfl

/-- A non-legendary item's `sell_in` drops by exactly one per step. -/
theorem updateItem_sell_in (item : Item) (h : item.name ≠ LEGENDARY_ITEM) :
    (updateItem item).sell_in = item.sell_in - 1 := by
  simp [updateItem, h]

/-- Iterating the whole-list update is the map of the iterated item update. -/
theorem update_quality_iterate (items : List Item) (n : Nat) :
    update_quality^[n] items = items.map (updateItem^[n]) := by
  induction n with
  | zero => simp
  | succ k ih =>
      rw [Function.iterate_succ_apply', ih, update_quality, List.map_map,
        Function.iterate_succ']

/-- The updated list has an element at every index of the input, and it is
the item update of the input element there. -/
theorem update_quality_get (items : List Item) (i : Nat) (hi : i < items.length)
    (hi2 : i < (update_quality items).length) :
    (update_quality items).get ⟨i, hi2⟩ = updateItem (items.get ⟨i, hi⟩) := by
  simp [update_quality, List.get_eq_getElem, List.getElem_map]

/-- After one step, a non-legendary item's quality sits in `[0, 50]`. -/
theorem updateItem_quality_bounds (item : Item) (h : item.name ≠ LEGENDARY_ITEM) :
    0 ≤ (updateItem item).quality ∧ (updateItem item).quality ≤ 50 := by
  unfold updateItem quality_increasing_update_strategy backstage_passes_update_strategy
    faster_degrading_update_strategy default_update_strategy get_updated_quality_within_bounds
    MAXIMUM_ALLOWED_QUALITY MINIMUM_ALLOWED_QUALITY
  rw [if_neg h]
  dsimp only
  split_ifs <;> omega

/-- Closed form of one step on an Aged Brie item. -/
theorem updateItem_brie (item : Item) (h : item.name = AGED_BRIE_ITEM) :
    updateItem item = Item.mk item.name (item.sell_in - 1)
      (max (min (item.quality + (if item.sell_in ≤ 0 then 2 else 1)) 50) 0) := by
  have h1 : AGED_BRIE_ITEM ≠ LEGENDARY_ITEM := by decide
  cases item with
  | mk name s q =>
      dsimp only at h
      subst h
      simp [updateItem, quality_increasing_update_strategy,
        get_updated_quality_within_bounds, MAXIMUM_ALLOWED_QUALITY,
        MINIMUM_ALLOWED_QUALITY, h1]

/-- Closed form of one step on a backstage-passes item. -/
theorem updateItem_backstage (item : Item) (h : item.name = BACKSTAGE_PASSES_ITEM) :
    updateItem item = Item.mk item.name (item.sell_in - 1)
      (if item.sell_in ≤ 0 then 0
       else max (min (item.quality +
         (if item.sell_in ≤ 5 then 3 else if item.sell_in ≤ 10 then 2 else 1)) 50) 0) := by
  have h1 : BACKSTAGE_PASSES_ITEM ≠ LEGENDARY_ITEM := by decide
  have h2 : BACKSTAGE_PASSES_ITEM ≠ AGED_BRIE_ITEM := by decide
  cases item with
  | mk name s q =>
      dsimp only at h
      subst h
      simp [updateItem, backstage_passes_update_strategy,
        get_updated_quality_within_bounds, MAXIMUM_ALLOWED_QUALITY,
        MINIMUM_ALLOWED_QUALITY, h1, h2]

/-- Closed form of one step on a conjured item. -/
theorem updateItem_conjured (item : Item) (h : item.name = CONJURED_ITEM) :
    updateItem item = Item.mk item.name (item.sell_in - 1)
      (max (min (item.quality + (if item.sell_in ≤ 0 then -4 else -2)) 50) 0) := by
  have h1 : CONJURED_ITEM ≠ LEGENDARY_ITEM := by decide
  have h2 : CONJURED_ITEM ≠ AGED_BRIE_ITEM := by decide
  have h3 : CONJURED_ITEM ≠ BACKSTAGE_PASSES_ITEM := by decide
  cases item with
  | mk name s q =>
      dsimp only at h
      subst h
      simp [updateItem, faster_degrading_update_strategy,
        get_updated_quality_within_bounds, MAXIMUM_ALLOWED_QUALITY,
        MINIMUM_ALLOWED_QUALITY, h1, h2, h3]

/-- Closed form of one step on an item whose name matches no known label. -/
theorem updateItem_unmatched (item : Item)
    (h1 : item.name ≠ AGED_BRIE_ITEM) (h2 : item.name ≠ BACKSTAGE_PASSES_ITEM)
    (h3 : item.name ≠ CONJURED_ITEM) (h4 : item.name ≠ LEGENDARY_ITEM) :
    updateItem item = Item.mk item.name (item.sell_in - 1)
      (max (min (item.quality + (if item.sell_in ≤ 0 then -2 else -1)) 50) 0) := by
  cases item with
  | mk name s q =>
      dsimp only at h1 h2 h3 h4
      simp [updateItem, default_update_strategy,
        get_updated_quality_within_bounds, MAXIMUM_ALLOWED_QUALITY,
        MINIMUM_ALLOWED_QUALITY, h1, h2, h3, h4]

/-- A backstage item that has reached `sell_in <= 0` has quality 0 after
every further number of steps (at least one). -/
theorem backstage_nonpos_quality_zero (item : Item)
    (h : item.name = BACKSTAGE_PASSES_ITEM) (hs : item.sell_in ≤ 0) :
    ∀ n : Nat, (updateItem^[n + 1] item).quality = 0 := by
  intro n
  induction n generalizing item with
  | zero =>
      rw [Function.iterate_one, updateItem_backstage item h]
      simp [hs]
  | succ k ih =>
      rw [Function.iterate_succ_apply]
      refine ih (updateItem item) ?_ ?_
      · rw [updateItem_name]
        exact h
      · have hne : item.name ≠ LEGENDARY_ITEM := by rw [h]; decide
        rw [updateItem_sell_in item hne]
        omega

/-- An Aged Brie item starting at quality at most 50 stays at quality at
most 50 under any number of steps. -/
theorem brie_quality_le_iterate (item : Item) (h : item.name = AGED_BRIE_ITEM)
    (hq : item.quality ≤ 50) : ∀ n : Nat, (updateItem^[n] item).quality ≤ 50 := by
  intro n
  induction n generalizing item with
  | zero => simpa
  | succ k ih =>
      rw [Function.iterate_succ_apply]
      refine ih (updateItem item) ?_ ?_
      · rw [updateItem_name]
        exact h
      · have hne : item.name ≠ LEGENDARY_ITEM := by rw [h]; decide
        exact (updateItem_quality_bounds item hne).2

/-- A list with a non-legendary item somewhere is changed by one update. -/
theorem update_quality_ne_of_nonlegendary (items : List Item) (i : Nat)
    (hi : i < items.length) (h : (items.get ⟨i, hi⟩).name ≠ LEGENDARY_ITEM) :
    update_quality items ≠ items := by
  intro heq
  have hi2 : i < (update_quality items).length := by
    simpa [update_quality] using hi
  have hget := update_quality_get items i hi hi2
  have hsame : (update_quality items).get ⟨i, hi2⟩ = items.get ⟨i, hi⟩ := by
    simp only [List.get_eq_getElem]
    congr 1
  rw [hget] at hsame
  have hs := updateItem_sell_in (items.get ⟨i, hi⟩) h
  rw [hsame] at hs
  omega

/-- C1: for every item whose name is not the legendary name, after one
update step the item's quality lies within `[0, 50]` inclusive, regardless
of the quality value supplied before the call (including out-of-range
values). -/
theorem claim_nonlegendary_quality_in_bounds (item : Item)
    (h : item.name ≠ LEGENDARY_ITEM) :
    0 ≤ (updateItem item).quality ∧ (updateItem item).quality ≤ 50 :=
  updateItem_quality_bounds item h

/-- Witness for C1: a common item with out-of-range quality 1000 lands in
bounds after one step. -/
theorem claim_nonlegendary_quality_in_bounds_wit :
    0 ≤ (updateItem (Item.mk COMMON_ITEM 3 1000)).quality ∧
    (updateItem (Item.mk COMMON_ITEM 3 1000)).quality ≤ 50 :=
  claim_nonlegendary_quality_in_bounds (Item.mk COMMON_ITEM 3 1000) (by decide)

/-- C2: an item with the legendary name keeps its quality and sell_in
unchanged under any number n of calls of update_quality, whatever its
initial values. -/
theorem claim_legendary_items_never_mutated (items : List Item) (n i : Nat)
    (hi : i < items.length) (hleg : (items.get ⟨i, hi⟩).name = LEGENDARY_ITEM) :
    ∃ hi2 : i < (update_quality^[n] items).length,
      ((update_quality^[n] items).get ⟨i, hi2⟩).quality = (items.get ⟨i, hi⟩).quality ∧
      ((update_quality^[n] items).get ⟨i, hi2⟩).sell_in = (items.get ⟨i, hi⟩).sell_in := by
  have hmap := update_quality_iterate items n
  have hfix : updateItem^[n] (items.get ⟨i, hi⟩) = items.get ⟨i, hi⟩ :=
    Function.iterate_fixed (updateItem_legendary _ hleg) n
  have hi2 : i < (update_quality^[n] items).length := by
    rw [hmap]
    simpa using hi
  refine ⟨hi2, ?_, ?_⟩ <;>
  · have : (update_quality^[n] items).get ⟨i, hi2⟩ = items.get ⟨i, hi⟩ := by
      simp only [List.get_eq_getElem]
      rw [List.getElem_of_eq hmap, List.getElem_map]
      simpa [List.get_eq_getElem] using hfix
    rw [this]

/-- Witness for C2: a legendary item at (sell_in 4, quality 80) is untouched
by three rounds of update_quality. -/
theorem claim_legendary_items_never_mutated_wit :
    ∃ hi2 : 0 < (update_quality^[3] [Item.mk LEGENDARY_ITEM 4 80]).length,
      ((update_quality^[3] [Item.mk LEGENDARY_ITEM 4 80]).get ⟨0, hi2⟩).quality =
        (([Item.mk LEGENDARY_ITEM 4 80]).get ⟨0, by decide⟩).quality ∧
      ((update_quality^[3] [Item.mk LEGENDARY_ITEM 4 80]).get ⟨0, hi2⟩).sell_in =
        (([Item.mk LEGENDARY_ITEM 4 80]).get ⟨0, by decide⟩).sell_in :=
  claim_legendary_items_never_mutated [Item.mk LEGENDARY_ITEM 4 80] 3 0
    (by decide) (by decide)

/-- Counterexample to C3 as stated: after 6 updates the normal item that
started at (10, 20) is not at quality 13 (it is at 14: the sixth update
still happens with sell_in = 5 > 0, so quality drops by 1, not 2). -/
theorem claim_normal_item_sixth_update_cex :
    update_quality^[6] [Item.mk COMMON_ITEM 10 20] ≠ [Item.mk COMMON_ITEM 4 13] := by
  decide

/-- C3 amended: a normal (fallback) item starting at (10, 20) is (9, 19)
after 1 update, (5, 15) after 5 updates, and (4, 14) after 6 updates (the
double degradation only starts once sell_in has reached 0). -/
theorem claim_normal_item_trajectory :
    update_quality^[1] [Item.mk COMMON_ITEM 10 20] = [Item.mk COMMON_ITEM 9 19] ∧
    update_quality^[5] [Item.mk COMMON_ITEM 10 20] = [Item.mk COMMON_ITEM 5 15] ∧
    update_quality^[6] [Item.mk COMMON_ITEM 10 20] = [Item.mk COMMON_ITEM 4 14] := by
  decide

/-- C4: one step on a backstage-pass item adds +1 to quality when
sell_in > 10, +2 when 6 ≤ sell_in ≤ 10, +3 when 1 ≤ sell_in ≤ 5 (each
clamped to [0, 50]), and sets quality to 0 once sell_in ≤ 0, where it stays
on every subsequent step; in particular (5, 48) becomes (4, 50). -/
theorem claim_backstage_passes_behaviour (item : Item)
    (h : item.name = BACKSTAGE_PASSES_ITEM) :
    (10 < item.sell_in →
      (updateItem item).quality = max (min (item.quality + 1) 50) 0) ∧
    (6 ≤ item.sell_in → item.sell_in ≤ 10 →
      (updateItem item).quality = max (min (item.quality + 2) 50) 0) ∧
    (1 ≤ item.sell_in → item.sell_in ≤ 5 →
      (updateItem item).quality = max (min (item.quality + 3) 50) 0) ∧
    (item.sell_in ≤ 0 → ∀ n : Nat, 1 ≤ n → (updateItem^[n] item).quality = 0) ∧
    updateItem (Item.mk BACKSTAGE_PASSES_ITEM 5 48) =
      Item.mk BACKSTAGE_PASSES_ITEM 4 50 := by
  refine ⟨?_, ?_, ?_, ?_, by decide⟩
  · intro hgt
    rw [updateItem_backstage item h]
    dsimp only
    rw [if_neg (by omega), if_neg (by omega), if_neg (by omega)]
  · intro h6 h10
    rw [updateItem_backstage item h]
    dsimp only
    rw [if_neg (by omega), if_neg (by omega), if_pos (by omega)]
  · intro h1 h5
    rw [updateItem_backstage item h]
    dsimp only
    rw [if_neg (by omega), if_pos (by omega)]
  · intro hs n hn
    obtain ⟨m, rfl⟩ : ∃ m, n = m + 1 := ⟨n - 1, by omega⟩
    exact backstage_nonpos_quality_zero item h hs m

/-- Witness for C4: a backstage pass at (7, 10) gains +2 after one step. -/
theorem claim_backstage_passes_behaviour_wit :
    (updateItem (Item.mk BACKSTAGE_PASSES_ITEM 7 10)).quality =
      max (min ((Item.mk BACKSTAGE_PASSES_ITEM 7 10).quality + 2) 50) 0 :=
  (claim_backstage_passes_behaviour (Item.mk BACKSTAGE_PASSES_ITEM 7 10)
    rfl).2.1 (by decide) (by decide)

/-- C5: one step on a conjured item subtracts 2 from quality when
sell_in > 0 and 4 when sell_in ≤ 0, clamped to [0, 50]; in particular
(3, 18) becomes (2, 16). -/
theorem claim_conjured_behaviour (item : Item) (h : item.name = CONJURED_ITEM) :
    (0 < item.sell_in →
      (updateItem item).quality = max (min (item.quality - 2) 50) 0) ∧
    (item.sell_in ≤ 0 →
      (updateItem item).quality = max (min (item.quality - 4) 50) 0) ∧
    updateItem (Item.mk CONJURED_ITEM 3 18) = Item.mk CONJURED_ITEM 2 16 := by
  refine ⟨?_, ?_, by decide⟩ <;> intro hs <;> rw [updateItem_conjured item h] <;>
    dsimp only <;> split_ifs <;> omega

/-- Witness for C5: the conjured item (3, 18) becomes (2, 16). -/
theorem claim_conjured_behaviour_wit :
    updateItem (Item.mk CONJURED_ITEM 3 18) = Item.mk CONJURED_ITEM 2 16 :=
  (claim_conjured_behaviour (Item.mk CONJURED_ITEM 3 18) rfl).2.2

/-- C6: one step on an Aged Brie item adds 1 to quality when sell_in > 0
and 2 when sell_in ≤ 0, clamped; (2, 0) becomes (1, 1); and from any
starting quality at most 50 (such as 49) the quality never exceeds 50
under any number of further steps. -/
theorem claim_aged_brie_behaviour (item : Item) (h : item.name = AGED_BRIE_ITEM) :
    (0 < item.sell_in →
      (updateItem item).quality = max (min (item.quality + 1) 50) 0) ∧
    (item.sell_in ≤ 0 →
      (updateItem item).quality = max (min (item.quality + 2) 50) 0) ∧
    (item.quality ≤ 50 → ∀ n : Nat, (updateItem^[n] item).quality ≤ 50) ∧
    updateItem (Item.mk AGED_BRIE_ITEM 2 0) = Item.mk AGED_BRIE_ITEM 1 1 := by
  refine ⟨?_, ?_, brie_quality_le_iterate item h, by decide⟩ <;> intro hs <;>
    rw [updateItem_brie item h] <;> dsimp only <;> split_ifs <;> omega

/-- Witness for C6: from quality 49 an Aged Brie stays at most 50 after
ten steps. -/
theorem claim_aged_brie_behaviour_wit :
    (updateItem^[10] (Item.mk AGED_BRIE_ITEM 2 49)).quality ≤ 50 :=
  (claim_aged_brie_behaviour (Item.mk AGED_BRIE_ITEM 2 49) rfl).2.2.1 (by decide) 10

/-- C7: an item whose name matches none of the known labels is updated by
the normal degrading rule (-1 while sell_in > 0, -2 once sell_in ≤ 0,
clamped to [0, 50]) with sell_in decremented, and never by an error: the
step is a total function fully described by this equation. -/
theorem claim_unknown_name_fallback (item : Item)
    (h1 : item.name ≠ AGED_BRIE_ITEM) (h2 : item.name ≠ BACKSTAGE_PASSES_ITEM)
    (h3 : item.name ≠ CONJURED_ITEM) (h4 : item.name ≠ LEGENDARY_ITEM) :
    updateItem item = Item.mk item.name (item.sell_in - 1)
      (max (min (item.quality + (if item.sell_in ≤ 0 then -2 else -1)) 50) 0) :=
  updateItem_unmatched item h1 h2 h3 h4

/-- Witness for C7: an unrecognized name degrades by the fallback rule. -/
theorem claim_unknown_name_fallback_wit :
    updateItem (Item.mk "Mysterious Sword" 0 10) =
      Item.mk (Item.mk "Mysterious Sword" 0 10).name
        ((Item.mk "Mysterious Sword" 0 10).sell_in - 1)
        (max (min ((Item.mk "Mysterious Sword" 0 10).quality +
          (if (Item.mk "Mysterious Sword" 0 10).sell_in ≤ 0 then -2 else -1)) 50) 0) :=
  claim_unknown_name_fallback (Item.mk "Mysterious Sword" 0 10)
    (by decide) (by decide) (by decide) (by decide)

/-- C8: one call of update_quality keeps the list's length (and order:
the element at every index stays at that index), never changes a name,
and decrements every non-legendary item's sell_in by exactly 1. -/
theorem claim_update_frame (items : List Item) :
    (update_quality items).length = items.length ∧
    ∀ (i : Nat) (hi : i < items.length) (hi2 : i < (update_quality items).length),
      ((update_quality items).get ⟨i, hi2⟩).name = (items.get ⟨i, hi⟩).name ∧
      ((items.get ⟨i, hi⟩).name ≠ LEGENDARY_ITEM →
        ((update_quality items).get ⟨i, hi2⟩).sell_in = (items.get ⟨i, hi⟩).sell_in - 1) := by
  refine ⟨by simp [update_quality], ?_⟩
  intro i hi hi2
  rw [update_quality_get items i hi hi2]
  exact ⟨updateItem_name _, fun hne => updateItem_sell_in _ hne⟩

/-- Witness for C8: for the singleton list holding a common item at
(5, 7), the updated element keeps its name and its sell_in drops by 1. -/
theorem claim_update_frame_wit :
    ((update_quality [Item.mk COMMON_ITEM 5 7]).get ⟨0, by decide⟩).name =
      (([Item.mk COMMON_ITEM 5 7]).get ⟨0, by decide⟩).name ∧
    ((update_quality [Item.mk COMMON_ITEM 5 7]).get ⟨0, by decide⟩).sell_in =
      (([Item.mk COMMON_ITEM 5 7]).get ⟨0, by decide⟩).sell_in - 1 := by
  obtain ⟨hname, hsell⟩ :=
    (claim_update_frame [Item.mk COMMON_ITEM 5 7]).2 0 (by decide) (by decide)
  exact ⟨hname, hsell (by decide)⟩

/-- Counterexample to C9 as stated: not every inventory state is changed
by a call of update_quality — a list holding only a legendary item is a
fixed point (so is the empty list). -/
theorem claim_update_not_idempotent_cex :
    update_quality [Item.mk LEGENDARY_ITEM 5 80] = [Item.mk LEGENDARY_ITEM 5 80] := by
  decide

/-- C9 amended: update_quality is not idempotent on any state holding at
least one non-legendary item: one call changes the state, and a second
call changes it again, so applying the update twice differs from applying
it once.  (States whose items are all legendary, including the empty
list, are fixed points.) -/
theorem claim_update_not_idempotent (items : List Item) (i : Nat)
    (hi : i < items.length) (h : (items.get ⟨i, hi⟩).name ≠ LEGENDARY_ITEM) :
    update_quality items ≠ items ∧
    update_quality (update_quality items) ≠ update_quality items := by
  refine ⟨update_quality_ne_of_nonlegendary items i hi h, ?_⟩
  have hi2 : i < (update_quality items).length := by
    simpa [update_quality] using hi
  refine update_quality_ne_of_nonlegendary (update_quality items) i hi2 ?_
  rw [update_quality_get items i hi hi2, updateItem_name]
  exact h

/-- Witness for C9: a single common item at (5, 7) is moved by the first
and by the second call. -/
theorem claim_update_not_idempotent_wit :
    update_quality [Item.mk COMMON_ITEM 5 7] ≠ [Item.mk COMMON_ITEM 5 7] ∧
    update_quality (update_quality [Item.mk COMMON_ITEM 5 7]) ≠
      update_quality [Item.mk COMMON_ITEM 5 7] :=
  claim_update_not_idempotent [Item.mk COMMON_ITEM 5 7] 0 (by decide) (by decide)

/-- C10: items are updated independently: the updated list has the same
length, and its element at every index is the single-item transition
applied to the input element at that index alone — so each item's
post-call fields are a function of that item's own pre-call fields only,
unaffected by the other items or by its position. -/
theorem claim_update_pointwise (items : List Item) :
    (update_quality items).length = items.length ∧
    ∀ (i : Nat) (hi : i < items.length) (hi2 : i < (update_quality items).length),
      (update_quality items).get ⟨i, hi2⟩ = updateItem (items.get ⟨i, hi⟩) := by
  exact ⟨by simp [update_quality], fun i hi hi2 => update_quality_get items i hi hi2⟩

/-- Witness for C10: in a two-item list, the element at index 1 after the
call is the single-item update of the input element at index 1. -/
theorem claim_update_pointwise_wit :
    (update_quality [Item.mk LEGENDARY_ITEM 1 80, Item.mk CONJURED_ITEM 3 18]).get
        ⟨1, by decide⟩ =
      updateItem (([Item.mk LEGENDARY_ITEM 1 80, Item.mk CONJURED_ITEM 3 18]).get
        ⟨1, by decide⟩) :=
  (claim_update_pointwise [Item.mk LEGENDARY_ITEM 1 80, Item.mk CONJURED_ITEM 3 18]).2
    1 (by decide) (by decide)

end GildedRose
